import Mathlib

/-!
Shallow embedding of the multi-stage test step executor (package steps,
multi_stage.go) of openshift/ci-tools.  External collaborators (secret
client, pod client, parameter source, dry-run logger, artifact/test-case
notifier chain) are represented by an environment of response functions;
every cluster-facing call is recorded in an explicit trace so that frame
and ordering properties can be stated.  Machine-level concurrency (the
cancellation-cleanup goroutine) is outside the model; cancellation shows
up only as a possible failure of the wait operation.
-/

namespace Steps

/-- Labels, mount-path and stream constants from the source file. -/
def multiStageTestLabel : String := "ci.openshift.io/multi-stage-test"

def clusterProfileMountPath : String := "/var/run/secrets/ci.openshift.io/cluster-profile"

def secretMountPath : String := "/var/run/secrets/ci.openshift.io/multi-stage"

/-- Modelled from the spec: `api.PipelineImageStream` is defined outside the
provided sources; it is the name of the internal pipeline image stream used
to qualify internally produced image tags. -/
def PipelineImageStream : String := "pipeline"

/-- Opaque payload of a step's resource request; the resource translator
(`resourcesFor`, outside the provided sources) consumes it. -/
abbrev Resources := String

/-- Opaque result of resource translation. -/
abbrev ResourceSpec := String

/-- Opaque owner reference propagated from the job spec onto pods. -/
abbrev OwnerRef := String

/-- `api.LiteralTestStep`: one step of a pre/test/post phase.  The Go field
`From` is called `fromImage` because `from` is reserved in Lean. -/
structure LiteralTestStep where
  as : String
  fromImage : String
  commands : String
  resources : Resources
  artifactDir : String := ""
deriving DecidableEq

/-- The two classifiers of `api.ReleaseBuildConfiguration` the step consults;
their implementations live outside the provided sources, so they are
abstract predicates. -/
structure ReleaseBuildConfiguration where
  isPipelineImage : String → Bool
  buildsImage : String → Bool

/-- The parts of `api.JobSpec` the step reads.  `jobNameHash` stands for the
`JobNameHash()` method, `owner` for `Owner()`. -/
structure JobSpec where
  namespace_ : String
  owner : Option OwnerRef := none
  jobNameHash : String := ""
deriving DecidableEq

/-- Volume sources used by the step: an emptyDir for the secret wrapper and
secret volumes for the results secret and the cluster profile. -/
inductive VolumeSource where
  | emptyDir
  | secret (secretName : String)
deriving DecidableEq

structure Volume where
  name : String
  source : VolumeSource
deriving DecidableEq

structure VolumeMount where
  name : String
  mountPath : String
deriving DecidableEq

/-- The container fields the step manipulates. -/
structure Container where
  name : String := ""
  image : String := ""
  command : List String := []
  args : List String := []
  env : List (String × String) := []
  volumeMounts : List VolumeMount := []
  terminationMessagePolicy : String := ""
deriving DecidableEq, Inhabited

/-- The pod fields the step manipulates. -/
structure Pod where
  name : String
  labels : List (String × String) := []
  ownerReferences : List OwnerRef := []
  volumes : List Volume := []
  initContainers : List Container := []
  containers : List Container := []
deriving DecidableEq

/-- One structured test-case record (`junit.TestCase`); only the name is
relevant to the claims, and for the notifier contract the name identifies
the container the record reports on. -/
structure TestCase where
  name : String
deriving DecidableEq

/-- Result of a secret delete call: success, "not found", or another error. -/
inductive DeleteResult where
  | ok
  | notFound
  | err (msg : String)
deriving DecidableEq

/-- Dependency links returned by `Requires`. -/
inductive StepLink where
  | internalImage (tag : String)
  | imagesReady
  | releaseImages
  | param (name : String) (idx : Nat)
deriving DecidableEq

/-- Cluster-facing calls issued during a run, in order.  `logSecret` and
`logPod` are records handed to the dry-run logger, not cluster calls. -/
inductive ClusterOp where
  | secretGet (name : String)
  | secretDelete (name : String)
  | secretCreate (name : String)
  | podCreate (name : String)
  | podWait (name : String)
  | logSecret (name : String)
  | logPod (name : String)
deriving DecidableEq

/-- True for the operations that mutate (or wait on) cluster state. -/
def mutating : ClusterOp → Bool
  | .secretDelete _ => true
  | .secretCreate _ => true
  | .podCreate _ => true
  | .podWait _ => true
  | _ => false

/-- Responses of the external collaborators (secret client, parameter
source, resource translator, base-pod generator, pod client, notifier
chain).  `none` means the call succeeds; `some e` carries the error.
`podStarted` lists the containers that started during a pod's execution and
`podSubTests` the records the test-case notifier finalized for it. -/
structure Env where
  profileSecretGet : String → Option String
  paramGet : String → Except String String
  paramLinks : String → List StepLink
  secretDelete : String → DeleteResult
  secretCreate : String → Option String
  resourcesFor : Resources → Except String ResourceSpec
  basePodErr : String → Option String
  clusterType : String → String
  createOrRestart : String → Option String
  waitForPod : String → Option String
  podStarted : String → List String
  podSubTests : String → List TestCase

/-- The immutable configuration of one `multiStageTestStep` value. -/
structure MultiStageTestStep where
  name : String
  profile : String := ""
  config : ReleaseBuildConfiguration
  jobSpec : JobSpec
  pre : List LiteralTestStep := []
  test : List LiteralTestStep := []
  post : List LiteralTestStep := []
  artifactDir : String := ""

/-- The mutable fields of `multiStageTestStep` (dry, releaseInitial,
releaseLatest, subTests) together with the trace of issued calls. -/
structure RunState where
  dry : Bool
  releaseInitial : String := ""
  releaseLatest : String := ""
  subTests : List TestCase := []
  trace : List ClusterOp := []
deriving DecidableEq

/-- `profileSecretName`. -/
def profileSecretName (s : MultiStageTestStep) : String :=
  s.name ++ "-cluster-profile"

/-- `SubTests`. -/
def SubTests (st : RunState) : List TestCase := st.subTests

/-- `createSecret`: in dry mode the secret is logged; otherwise it is
deleted (a "not found" answer is tolerated) and then created. -/
def createSecret (env : Env) (s : MultiStageTestStep) (st : RunState) :
    RunState × Option String :=
  if st.dry then
    ({ st with trace := st.trace ++ [ClusterOp.logSecret s.name] }, none)
  else
    let st1 := { st with trace := st.trace ++ [ClusterOp.secretDelete s.name] }
    match env.secretDelete s.name with
    | .err m => (st1, some ("cannot delete secret \"" ++ s.name ++ "\": " ++ m))
    | _ =>
      ({ st1 with trace := st1.trace ++ [ClusterOp.secretCreate s.name] },
       env.secretCreate s.name)

/-- The bash wrapper the step builds around its command body. -/
def wrapCommands (commands : String) : List String :=
  ["/bin/bash", "-c", "#!/bin/bash\nset -eu\n" ++ commands]

/-- `strings.Replace(name, "_", "-", -1)`. -/
def jobNameSafe (name : String) : String :=
  name.map fun ch => if ch = '_' then '-' else ch

/-- Modelled from the spec: `generateBasePod` is outside the provided
sources.  Following the Pod Synthesizer description it yields a pod with the
given name and a single container, named after the step, running `command`
on `image`; its failures are injected through `Env.basePodErr`. -/
def generateBasePod (env : Env) (jobSpec : JobSpec) (name as : String)
    (command : List String) (image : String) (resources : ResourceSpec)
    (artifactDir : String) : Except String Pod :=
  match env.basePodErr as with
  | some e => .error e
  | none =>
    .ok { name := name,
          containers := [{ name := as, image := image, command := command }] }

/-- Assignment into the pod's label map. -/
def setLabel (key value : String) (pod : Pod) : Pod :=
  { pod with labels := pod.labels.filter (fun kv => kv.1 != key) ++ [(key, value)] }

/-- Apply `f` to `pod.Spec.Containers[0]`, as the Go code does through the
`container` pointer; a pod without containers is left unchanged. -/
def mapMainContainer (f : Container → Container) (pod : Pod) : Pod :=
  match pod.containers with
  | [] => pod
  | c :: rest => { pod with containers := f c :: rest }

/-- `addSecretWrapper`: adds the shared emptyDir volume and the init
container that copies the wrapper binary into it, and rewrites the main
container to invoke the wrapper with the original command line as
arguments. -/
def addSecretWrapper (pod : Pod) : Pod :=
  let volume := "secret-wrapper"
  let dir := "/tmp/secret-wrapper"
  let bin := dir ++ "/secret-wrapper"
  let pod : Pod := { pod with
    volumes := pod.volumes ++ [{ name := volume, source := VolumeSource.emptyDir }] }
  let mount : VolumeMount := { name := volume, mountPath := dir }
  let pod : Pod := { pod with
    initContainers := pod.initContainers ++
      [{ name := "cp-secret-wrapper",
         image := "registry.svc.ci.openshift.org/ci/secret-wrapper:latest",
         command := ["cp"],
         args := ["/bin/secret-wrapper", bin],
         volumeMounts := [mount],
         terminationMessagePolicy := "FallbackToLogsOnError" }] }
  mapMainContainer
    (fun c => { c with
      args := c.command ++ c.args,
      command := [bin],
      volumeMounts := c.volumeMounts ++ [mount] })
    pod

/-- `addSecret`: mounts the results secret at the fixed secrets path. -/
def addSecret (secret : String) (pod : Pod) : Pod :=
  let pod : Pod := { pod with
    volumes := pod.volumes ++ [{ name := secret, source := VolumeSource.secret secret }] }
  mapMainContainer
    (fun c => { c with
      volumeMounts := c.volumeMounts ++ [{ name := secret, mountPath := secretMountPath }] })
    pod

/-- `addProfile`: mounts the cluster-profile secret and injects the
`CLUSTER_TYPE` variable derived from the profile. -/
def addProfile (env : Env) (name profile : String) (pod : Pod) : Pod :=
  let volumeName := "cluster-profile"
  let pod : Pod := { pod with
    volumes := pod.volumes ++ [{ name := volumeName, source := VolumeSource.secret name }] }
  mapMainContainer
    (fun c => { c with
      volumeMounts := c.volumeMounts ++
        [{ name := volumeName, mountPath := clusterProfileMountPath }],
      env := c.env ++ [("CLUSTER_TYPE", env.clusterType profile)] })
    pod

/-- The body of the `generatePods` loop for one step: resolve the image,
translate resources, generate the base pod, then label it, wrap it, inject
the standard environment, owner reference, optional profile material and the
results secret. -/
def synthesizeStepPod (env : Env) (s : MultiStageTestStep) (st : RunState)
    (step : LiteralTestStep) : Except String Pod :=
  let image :=
    if s.config.isPipelineImage step.fromImage then
      PipelineImageStream ++ ":" ++ step.fromImage
    else step.fromImage
  match env.resourcesFor step.resources with
  | .error e => .error e
  | .ok resources =>
    let name := s.name ++ "-" ++ step.as
    match generateBasePod env s.jobSpec name step.as (wrapCommands step.commands)
        image resources step.artifactDir with
    | .error e => .error e
    | .ok pod =>
      let pod := setLabel multiStageTestLabel s.name pod
      let pod := addSecretWrapper pod
      let pod := mapMainContainer
        (fun c => { c with env := c.env ++
          [("NAMESPACE", s.jobSpec.namespace_),
           ("JOB_NAME_SAFE", jobNameSafe s.name),
           ("JOB_NAME_HASH", s.jobSpec.jobNameHash)] }) pod
      let pod :=
        match s.jobSpec.owner with
        | some o => { pod with ownerReferences := pod.ownerReferences ++ [o] }
        | none => pod
      let pod :=
        if s.profile != "" then
          let pod := addProfile env (profileSecretName s) s.profile pod
          mapMainContainer
            (fun c => { c with env := c.env ++
              [("KUBECONFIG", secretMountPath ++ "/kubeconfig"),
               ("RELEASE_IMAGE_INITIAL", st.releaseInitial),
               ("RELEASE_IMAGE_LATEST", st.releaseLatest)] }) pod
        else pod
      .ok (addSecret s.name pod)

/-- The error `synthesizeStepPod` produces for a step, if any; it depends
only on the resource translator and the base-pod generator. -/
def synthesisError (env : Env) (step : LiteralTestStep) : Option String :=
  match env.resourcesFor step.resources with
  | .error e => some e
  | .ok _ => env.basePodErr step.as

/-- `generatePods`: per-step synthesis with per-step error collection; the
successful pods and the errors are both kept in declaration order. -/
def generatePods (env : Env) (s : MultiStageTestStep) (st : RunState) :
    List LiteralTestStep → List Pod × List String
  | [] => ([], [])
  | step :: rest =>
    let tail := generatePods env s st rest
    match synthesizeStepPod env s st step with
    | .error e => (tail.1, e :: tail.2)
    | .ok pod => (pod :: tail.1, tail.2)

/-- `runPod`: in dry mode the pod is logged; otherwise it is created (or
restarted) and awaited, and on successful completion the notifier records
are appended to the collected subtests.  The per-pod cancellation watcher
only forwards cancellation to the notifier and is not modelled. -/
def runPod (env : Env) (s : MultiStageTestStep) (st : RunState) (pod : Pod) :
    RunState × Option String :=
  if st.dry then
    ({ st with trace := st.trace ++ [ClusterOp.logPod pod.name] }, none)
  else
    let st1 := { st with trace := st.trace ++ [ClusterOp.podCreate pod.name] }
    match env.createOrRestart pod.name with
    | some e =>
      (st1, some ("failed to create or restart \"" ++ pod.name ++ "\" pod: " ++ e))
    | none =>
      let st2 := { st1 with trace := st1.trace ++ [ClusterOp.podWait pod.name] }
      match env.waitForPod pod.name with
      | some e =>
        (st2, some ("\"" ++ s.name ++ "\" pod \"" ++ pod.name ++ "\" failed: " ++ e))
      | none =>
        ({ st2 with subTests := st2.subTests ++ env.podSubTests pod.name }, none)

/-- The error a non-dry `runPod` reports for a pod, if any. -/
def podError (env : Env) (s : MultiStageTestStep) (pod : Pod) : Option String :=
  match env.createOrRestart pod.name with
  | some e => some ("failed to create or restart \"" ++ pod.name ++ "\" pod: " ++ e)
  | none =>
    match env.waitForPod pod.name with
    | some e =>
      some ("\"" ++ s.name ++ "\" pod \"" ++ pod.name ++ "\" failed: " ++ e)
    | none => none

/-- `runPods`: executes pods in declaration order, collecting errors; with
`shortCircuit` the first failure stops the loop.  The phase-scoped
cancellation watcher (best-effort delete of all labelled pods) only acts on
context cancellation and is not modelled. -/
def runPods (env : Env) (s : MultiStageTestStep) (st : RunState) :
    List Pod → Bool → RunState × List String
  | [], _ => (st, [])
  | pod :: rest, shortCircuit =>
    match runPod env s st pod with
    | (st1, none) => runPods env s st1 rest shortCircuit
    | (st1, some e) =>
      match shortCircuit with
      | true => (st1, [e])
      | false =>
        let tail := runPods env s st1 rest false
        (tail.1, e :: tail.2)

/-- `runSteps`: synthesize all pods of a phase; abort the phase on any
synthesis error, otherwise execute the pods. -/
def runSteps (env : Env) (s : MultiStageTestStep) (st : RunState)
    (steps : List LiteralTestStep) (shortCircuit : Bool) : RunState × List String :=
  let gen := generatePods env s st steps
  if gen.2 = [] then runPods env s st gen.1 shortCircuit
  else (st, gen.2)

/-- The aggregate error rendering of `utilerrors.NewAggregate`: the claims
only rely on every collected message being part of it. -/
def aggStr (errs : List String) : String :=
  String.intercalate ", " errs

/-- Wrapping of one phase's aggregate error in `Run`; an error-free phase
contributes nothing. -/
def wrapPhase (name phase : String) (errs : List String) : List String :=
  if errs = [] then []
  else ["\"" ++ name ++ "\" " ++ phase ++ " steps failed: " ++ aggStr errs]

/-- The phase sequencing of `Run`: pre with short-circuit, test with
short-circuit only if pre succeeded, post without short-circuit
unconditionally, errors accumulated in phase order. -/
def runPhases (env : Env) (s : MultiStageTestStep) (st : RunState) :
    RunState × List String :=
  let pre := runSteps env s st s.pre true
  let head :=
    if pre.2 = [] then
      let t := runSteps env s pre.1 s.test true
      (t.1, wrapPhase s.name "test" t.2)
    else (pre.1, wrapPhase s.name "pre" pre.2)
  let post := runSteps env s head.1 s.post false
  (post.1, head.2 ++ wrapPhase s.name "post" post.2)

/-- The profile-conditional prologue of `Run`: verify the profile secret
exists and resolve the two release-image parameters. -/
def runProfileSetup (env : Env) (s : MultiStageTestStep) (st : RunState) :
    RunState × Option String :=
  if s.profile != "" then
    let secret := profileSecretName s
    let st1 := { st with trace := st.trace ++ [ClusterOp.secretGet secret] }
    match env.profileSecretGet secret with
    | some e => (st1, some ("could not find secret \"" ++ secret ++ "\": " ++ e))
    | none =>
      match env.paramGet "RELEASE_IMAGE_INITIAL" with
      | .error e => (st1, some e)
      | .ok ini =>
        match env.paramGet "RELEASE_IMAGE_LATEST" with
        | .error e => (st1, some e)
        | .ok lat => ({ st1 with releaseInitial := ini, releaseLatest := lat }, none)
  else (st, none)

/-- The prologue of `Run`: profile checks followed by recreation of the
results secret (whose error `Run` wraps). -/
def runSetup (env : Env) (s : MultiStageTestStep) (dry : Bool) :
    RunState × Option String :=
  match runProfileSetup env s { dry := dry } with
  | (st, some e) => (st, some e)
  | (st, none) =>
    match createSecret env s st with
    | (st1, some e) => (st1, some ("failed to create secret: " ++ e))
    | (st1, none) => (st1, none)

/-- `Run`: prologue, then the pre/test/post phase sequence.  The single
error of the Go function becomes a list of error messages, the empty list
standing for the nil (empty) aggregate. -/
def Run (env : Env) (s : MultiStageTestStep) (dry : Bool) :
    RunState × List String :=
  match runSetup env s dry with
  | (st, some e) => (st, [e])
  | (st, none) => runPhases env s st

/-- The classification loop of `Requires` over the concatenated step list:
the internal-image links in declaration order plus the two needs flags. -/
def classifySteps (cfg : ReleaseBuildConfiguration) :
    List LiteralTestStep → List StepLink × Bool × Bool
  | [] => ([], false, false)
  | step :: rest =>
    let tail := classifySteps cfg rest
    if cfg.isPipelineImage step.fromImage then
      (StepLink.internalImage step.fromImage :: tail.1, tail.2.1, tail.2.2)
    else if cfg.buildsImage step.fromImage then
      (tail.1, true, tail.2.2)
    else (tail.1, tail.2.1, true)

/-- `Requires`. -/
def Requires (env : Env) (s : MultiStageTestStep) : List StepLink :=
  let c := classifySteps s.config (s.pre ++ s.test ++ s.post)
  let ret := c.1
  let ret := if c.2.1 then ret ++ [StepLink.imagesReady] else ret
  let ret := if c.2.2 then ret ++ [StepLink.releaseImages] else ret
  if s.profile != "" then
    ret ++ env.paramLinks "RELEASE_IMAGE_INITIAL" ++ env.paramLinks "RELEASE_IMAGE_LATEST"
  else ret

/-- `Creates`. -/
def Creates (_s : MultiStageTestStep) : List StepLink := []

/-- `Provides`. -/
def Provides (_s : MultiStageTestStep) :
    Option (List (String × String)) × Option StepLink := (none, none)

/-- The claim's reading of `Requires`, written independently: one
internal-image link per pipeline-image step, one images-ready link if any
step uses a built (non-pipeline) image, one release-images link if any step
uses neither, plus the parameter links when a profile is set. -/
def RequiresSpec (env : Env) (s : MultiStageTestStep) : List StepLink :=
  let all := s.pre ++ s.test ++ s.post
  (all.filterMap fun step =>
    if s.config.isPipelineImage step.fromImage then
      some (StepLink.internalImage step.fromImage)
    else none)
  ++ (if all.any (fun step =>
        !s.config.isPipelineImage step.fromImage &&
          s.config.buildsImage step.fromImage) then [StepLink.imagesReady] else [])
  ++ (if all.any (fun step =>
        !s.config.isPipelineImage step.fromImage &&
          !s.config.buildsImage step.fromImage) then [StepLink.releaseImages] else [])
  ++ (if s.profile != "" then
        env.paramLinks "RELEASE_IMAGE_INITIAL" ++ env.paramLinks "RELEASE_IMAGE_LATEST"
      else [])

/-- The emptyDir volume `addSecretWrapper` introduces. -/
def secretWrapperVolume : Volume :=
  { name := "secret-wrapper", source := VolumeSource.emptyDir }

/-- The mount of that volume, shared by the init container and the main
container. -/
def secretWrapperMount : VolumeMount :=
  { name := "secret-wrapper", mountPath := "/tmp/secret-wrapper" }

/-- The init container `addSecretWrapper` introduces: it copies the wrapper
binary into the shared volume. -/
def secretWrapperInit : Container :=
  { name := "cp-secret-wrapper",
    image := "registry.svc.ci.openshift.org/ci/secret-wrapper:latest",
    command := ["cp"],
    args := ["/bin/secret-wrapper", "/tmp/secret-wrapper/secret-wrapper"],
    volumeMounts := [secretWrapperMount],
    terminationMessagePolicy := "FallbackToLogsOnError" }

/-- The failure, if any, of the profile-conditional prologue of `Run`: the
profile secret lookup and the two release-image parameters, checked in that
order. -/
def setupFailure (env : Env) (s : MultiStageTestStep) : Option String :=
  match env.profileSecretGet (profileSecretName s) with
  | some e => some ("could not find secret \"" ++ profileSecretName s ++ "\": " ++ e)
  | none =>
    match env.paramGet "RELEASE_IMAGE_INITIAL" with
    | .error e => some e
    | .ok _ =>
      match env.paramGet "RELEASE_IMAGE_LATEST" with
      | .error e => some e
      | .ok _ => none

/-! Concrete fixtures used to exercise the definitions. -/

def cfgW : ReleaseBuildConfiguration :=
  { isPipelineImage := fun im => im == "src", buildsImage := fun im => im == "cli" }

def jobSpecW : JobSpec := { namespace_ := "ns", owner := none, jobNameHash := "h" }

def stepA : LiteralTestStep :=
  { as := "a", fromImage := "src", commands := "make a", resources := "r" }

def stepB : LiteralTestStep :=
  { as := "b", fromImage := "cli", commands := "make b", resources := "r" }

def stepBadRes : LiteralTestStep :=
  { as := "badres", fromImage := "src", commands := "make", resources := "bad" }

def stepBadPod : LiteralTestStep :=
  { as := "badpod", fromImage := "other", commands := "make", resources := "r" }

def sW : MultiStageTestStep :=
  { name := "t", config := cfgW, jobSpec := jobSpecW,
    pre := [stepA], test := [stepB], post := [] }

def sProf : MultiStageTestStep :=
  { name := "t", profile := "aws", config := cfgW, jobSpec := jobSpecW,
    pre := [stepA], test := [], post := [] }

def envW : Env :=
  { profileSecretGet := fun _ => none,
    paramGet := fun _ => Except.ok "img",
    paramLinks := fun n => [StepLink.param n 0],
    secretDelete := fun _ => DeleteResult.notFound,
    secretCreate := fun _ => none,
    resourcesFor := fun r => if r == "bad" then Except.error "bad resources" else Except.ok "spec",
    basePodErr := fun a => if a == "badpod" then some "bad base pod" else none,
    clusterType := fun p => p,
    createOrRestart := fun _ => none,
    waitForPod := fun _ => none,
    podStarted := fun _ => [],
    podSubTests := fun _ => [] }

def podA : Pod := { name := "t-a" }

def podP : Pod := { name := "p" }

def podWrapMain : Container :=
  { name := "m", image := "img", command := ["/bin/bash", "-c", "body"], args := ["x"] }

def podWrap : Pod := { name := "w", containers := [podWrapMain] }

def podB : Pod := { name := "t-b" }

def podC : Pod := { name := "t-c" }

def stRun : RunState := { dry := false }

def stDry : RunState := { dry := true }

/-- Environment in which pod `t-b` fails to be created. -/
def envFailB : Env := { envW with
  createOrRestart := fun n => if n == "t-b" then some "boom" else none }

/-- Environment in which the profile secret is absent. -/
def envNoProfile : Env := { envW with profileSecretGet := fun _ => some "missing" }

/-- Environment in which every pod wait fails while a container had started
and the notifier finalized a record for it. -/
def envC8 : Env := { envW with
  waitForPod := fun _ => some "boom",
  podStarted := fun _ => ["c"],
  podSubTests := fun _ => [{ name := "c" }] }

/-- Environment in which pods complete and the notifier reports container
`c`. -/
def envC8ok : Env := { envW with
  podStarted := fun _ => ["c"],
  podSubTests := fun _ => [{ name := "c" }] }

/-- Environment in which the results-secret delete fails hard. -/
def envDelErr : Env := { envW with secretDelete := fun _ => DeleteResult.err "denied" }

/-! Helper lemmas shared by the claim theorems. -/

theorem classifySteps_eq (cfg : ReleaseBuildConfiguration) (steps : List LiteralTestStep) :
    classifySteps cfg steps =
      (steps.filterMap fun step =>
         if cfg.isPipelineImage step.fromImage then
           some (StepLink.internalImage step.fromImage)
         else none,
       steps.any fun step =>
         !cfg.isPipelineImage step.fromImage && cfg.buildsImage step.fromImage,
       steps.any fun step =>
         !cfg.isPipelineImage step.fromImage && !cfg.buildsImage step.fromImage) := by
  induction steps with
  | nil => rfl
  | cons step rest ih =>
    simp only [classifySteps, ih, List.filterMap_cons, List.any_cons]
    cases h1 : cfg.isPipelineImage step.fromImage <;>
      cases h2 : cfg.buildsImage step.fromImage <;> simp [h1, h2]

/-- C7: `Requires` classifies the concatenated pre/test/post step list into
one internal-image link per pipeline-image step, an images-ready link if
any step uses a built image, a release-images link if any step uses
neither, plus the two parameter links when a cluster profile is set;
`Creates` and `Provides` are empty. -/
theorem requires_terminal_consumer_C7 (env : Env) (s : MultiStageTestStep) :
    Requires env s = RequiresSpec env s ∧ Creates s = [] ∧
      Provides s = (none, none) := by
  refine ⟨?_, rfl, rfl⟩
  simp only [Requires, RequiresSpec, classifySteps_eq]
  cases h1 : (s.pre ++ s.test ++ s.post).any fun step =>
      !s.config.isPipelineImage step.fromImage && s.config.buildsImage step.fromImage <;>
    cases h2 : (s.pre ++ s.test ++ s.post).any fun step =>
      !s.config.isPipelineImage step.fromImage && !s.config.buildsImage step.fromImage <;>
    cases h3 : s.profile != "" <;>
    simp [h1, h2, h3, List.append_assoc]

/-- C10: `addSecretWrapper` rewrites the main container to run the wrapper
binary with the original command line as its arguments, mounts the shared
emptyDir volume, and adds exactly one init container that copies the
wrapper binary into that volume, mounting the same volume in both. -/
theorem secret_wrapper_rewrite_C10 (pod : Pod) (c : Container)
    (rest : List Container) (h : pod.containers = c :: rest) :
    (addSecretWrapper pod).containers =
      { c with args := c.command ++ c.args,
               command := ["/tmp/secret-wrapper/secret-wrapper"],
               volumeMounts := c.volumeMounts ++ [secretWrapperMount] } :: rest
  ∧ (addSecretWrapper pod).initContainers = pod.initContainers ++ [secretWrapperInit]
  ∧ (addSecretWrapper pod).volumes = pod.volumes ++ [secretWrapperVolume]
  ∧ secretWrapperInit.command = ["cp"]
  ∧ secretWrapperInit.args = ["/bin/secret-wrapper", "/tmp/secret-wrapper/secret-wrapper"]
  ∧ secretWrapperMount ∈ secretWrapperInit.volumeMounts
  ∧ secretWrapperMount ∈
      ((addSecretWrapper pod).containers.headI).volumeMounts := by
  refine ⟨?_, ?_, ?_, rfl, rfl, ?_, ?_⟩ <;>
    simp [addSecretWrapper, mapMainContainer, h, secretWrapperInit,
      secretWrapperMount, secretWrapperVolume]

theorem secret_wrapper_rewrite_C10_witness :
    podWrap.containers = podWrapMain :: []
  ∧ ((addSecretWrapper podWrap).containers =
      { podWrapMain with
        args := podWrapMain.command ++ podWrapMain.args,
        command := ["/tmp/secret-wrapper/secret-wrapper"],
        volumeMounts := podWrapMain.volumeMounts ++ [secretWrapperMount] } :: []
    ∧ (addSecretWrapper podWrap).initContainers =
        podWrap.initContainers ++ [secretWrapperInit]
    ∧ (addSecretWrapper podWrap).volumes = podWrap.volumes ++ [secretWrapperVolume]
    ∧ secretWrapperInit.command = ["cp"]
    ∧ secretWrapperInit.args =
        ["/bin/secret-wrapper", "/tmp/secret-wrapper/secret-wrapper"]
    ∧ secretWrapperMount ∈ secretWrapperInit.volumeMounts
    ∧ secretWrapperMount ∈
        ((addSecretWrapper podWrap).containers.headI).volumeMounts) :=
  ⟨rfl, secret_wrapper_rewrite_C10 podWrap podWrapMain [] rfl⟩

theorem synthesisError_spec (env : Env) (s : MultiStageTestStep) (st : RunState)
    (step : LiteralTestStep) (e : String) :
    synthesizeStepPod env s st step = Except.error e ↔
      synthesisError env step = some e := by
  unfold synthesizeStepPod synthesisError generateBasePod
  cases hr : env.resourcesFor step.resources <;>
    cases hb : env.basePodErr step.as <;> simp [hr, hb]

theorem synthesisError_none_of_ok (env : Env) (s : MultiStageTestStep)
    (st : RunState) (step : LiteralTestStep) (pod : Pod)
    (h : synthesizeStepPod env s st step = Except.ok pod) :
    synthesisError env step = none := by
  cases hse : synthesisError env step with
  | none => rfl
  | some e =>
    have he := (synthesisError_spec env s st step e).mpr hse
    rw [he] at h
    cases h

theorem synthesizeStepPod_image (env : Env) (s : MultiStageTestStep)
    (st : RunState) (step : LiteralTestStep) (pod : Pod)
    (h : synthesizeStepPod env s st step = Except.ok pod) :
    pod.containers.map Container.image =
      [if s.config.isPipelineImage step.fromImage then
         PipelineImageStream ++ ":" ++ step.fromImage
       else step.fromImage] := by
  unfold synthesizeStepPod generateBasePod at h
  cases hr : env.resourcesFor step.resources <;> rw [hr] at h
  · cases h
  cases hb : env.basePodErr step.as <;> rw [hb] at h
  · injection h with h
    subst h
    cases hp : s.profile != "" <;> cases ho : s.jobSpec.owner <;>
      simp [hp, ho, addSecret, addProfile, setLabel, addSecretWrapper,
        mapMainContainer]
  · cases h

theorem generatePods_errors (env : Env) (s : MultiStageTestStep) (st : RunState)
    (steps : List LiteralTestStep) :
    (generatePods env s st steps).2 = steps.filterMap (synthesisError env) := by
  induction steps with
  | nil => rfl
  | cons step rest ih =>
    simp only [generatePods, List.filterMap_cons]
    cases hsp : synthesizeStepPod env s st step with
    | error e =>
      have hse := (synthesisError_spec env s st step e).mp hsp
      simp [hsp, hse, ih]
    | ok pod =>
      have hse := synthesisError_none_of_ok env s st step pod hsp
      simp [hsp, hse, ih]

/-- C5: for every step of a phase whose synthesis succeeds, the produced
pod's (single) container image is the pipeline-stream-qualified tag when
the step's source is an internal pipeline image, and the source string
verbatim otherwise. -/
theorem image_resolution_C5 (env : Env) (s : MultiStageTestStep) (st : RunState)
    (steps : List LiteralTestStep) :
    ((generatePods env s st steps).1.map fun pod => pod.containers.map Container.image) =
      ((steps.filter fun step => (synthesisError env step).isNone).map fun step =>
        [if s.config.isPipelineImage step.fromImage then
           PipelineImageStream ++ ":" ++ step.fromImage
         else step.fromImage]) := by
  induction steps with
  | nil => rfl
  | cons step rest ih =>
    simp only [generatePods, List.filter_cons]
    cases hsp : synthesizeStepPod env s st step with
    | error e =>
      have hse := (synthesisError_spec env s st step e).mp hsp
      simp [hsp, hse, ih]
    | ok pod =>
      have hse := synthesisError_none_of_ok env s st step pod hsp
      simp [hsp, hse, List.map_cons, synthesizeStepPod_image env s st step pod hsp, ih]

/-- C6: pod-synthesis errors within one phase are collected per step, and
when any step of the phase fails synthesis the phase returns the aggregated
errors with the state untouched — no pod of the phase is submitted. -/
theorem synthesis_error_phase_abort_C6 (env : Env) (s : MultiStageTestStep)
    (st : RunState) (steps : List LiteralTestStep) (sc : Bool)
    (herr : (generatePods env s st steps).2 ≠ []) :
    (generatePods env s st steps).2 = steps.filterMap (synthesisError env)
  ∧ runSteps env s st steps sc = (st, steps.filterMap (synthesisError env)) := by
  refine ⟨generatePods_errors env s st steps, ?_⟩
  simp only [runSteps]
  rw [if_neg herr, generatePods_errors]

theorem synthesis_error_phase_abort_C6_witness :
    (generatePods envW sW stRun [stepBadRes, stepA, stepBadPod]).2 ≠ []
  ∧ ((generatePods envW sW stRun [stepBadRes, stepA, stepBadPod]).2 =
      [stepBadRes, stepA, stepBadPod].filterMap (synthesisError envW)
    ∧ runSteps envW sW stRun [stepBadRes, stepA, stepBadPod] true =
      (stRun, [stepBadRes, stepA, stepBadPod].filterMap (synthesisError envW))) :=
  ⟨by decide, synthesis_error_phase_abort_C6 envW sW stRun _ true (by decide)⟩

theorem runProfileSetup_dry (env : Env) (s : MultiStageTestStep) (st : RunState) :
    (runProfileSetup env s st).1.dry = st.dry := by
  unfold runProfileSetup
  cases hp : s.profile != "" <;>
    cases hg : env.profileSecretGet (profileSecretName s) <;>
    cases h1 : env.paramGet "RELEASE_IMAGE_INITIAL" <;>
    cases h2 : env.paramGet "RELEASE_IMAGE_LATEST" <;>
    simp [hp, hg, h1, h2]

/-- C3: a non-dry invocation deletes and then creates the results secret
named after the test; a "not found" delete answer is tolerated, while any
other delete error short-circuits before the create, and either kind of
failure makes `Run` fail. -/
theorem results_secret_lifecycle_C3 (env : Env) (s : MultiStageTestStep)
    (st : RunState) (hdry : st.dry = false) :
    createSecret env s st =
      (match env.secretDelete s.name with
       | .err m =>
         ({ st with trace := st.trace ++ [ClusterOp.secretDelete s.name] },
          some ("cannot delete secret \"" ++ s.name ++ "\": " ++ m))
       | _ =>
         ({ st with trace := st.trace ++
             [ClusterOp.secretDelete s.name, ClusterOp.secretCreate s.name] },
          env.secretCreate s.name))
  ∧ (((match env.secretDelete s.name with | .err _ => true | _ => false) ||
        (env.secretCreate s.name).isSome) = true →
      (Run env s false).2 ≠ []) := by
  constructor
  · unfold createSecret
    rw [if_neg (by simp [hdry])]
    cases hdel : env.secretDelete s.name <;> simp [hdel]
  · intro hfail
    unfold Run runSetup
    cases hps : runProfileSetup env s { dry := false } with
    | mk st1 r =>
      cases r with
      | some e => simp
      | none =>
        have hd : st1.dry = false := by
          have h := runProfileSetup_dry env s { dry := false }
          rw [hps] at h
          exact h
        cases hdel : env.secretDelete s.name with
        | err m => simp [createSecret, hd, hdel]
        | ok =>
          cases hc : env.secretCreate s.name with
          | some m => simp [createSecret, hd, hdel, hc]
          | none => rw [hdel, hc] at hfail; cases hfail
        | notFound =>
          cases hc : env.secretCreate s.name with
          | some m => simp [createSecret, hd, hdel, hc]
          | none => rw [hdel, hc] at hfail; cases hfail

theorem results_secret_lifecycle_C3_witness :
    stRun.dry = false
  ∧ (createSecret envDelErr sW stRun =
      (match envDelErr.secretDelete sW.name with
       | .err m =>
         ({ stRun with trace := stRun.trace ++ [ClusterOp.secretDelete sW.name] },
          some ("cannot delete secret \"" ++ sW.name ++ "\": " ++ m))
       | _ =>
         ({ stRun with trace := stRun.trace ++
             [ClusterOp.secretDelete sW.name, ClusterOp.secretCreate sW.name] },
          envDelErr.secretCreate sW.name))
    ∧ (((match envDelErr.secretDelete sW.name with | .err _ => true | _ => false) ||
          (envDelErr.secretCreate sW.name).isSome) = true →
        (Run envDelErr sW false).2 ≠ [])) :=
  ⟨rfl, results_secret_lifecycle_C3 envDelErr sW stRun rfl⟩

/-- C4: with a cluster profile set, a failing profile-secret lookup makes
`Run` return the error naming the missing secret, and an unresolved
release-image parameter likewise aborts it, in both cases before any pod is
created, any phase is started or the results secret is touched: the trace
holds nothing but the secret lookup. -/
theorem profile_failfast_C4 (env : Env) (s : MultiStageTestStep) (e : String)
    (hprof : s.profile ≠ "") (hfail : setupFailure env s = some e) :
    Run env s false =
      ({ dry := false, trace := [ClusterOp.secretGet (profileSecretName s)] }, [e]) := by
  have hb : (s.profile != "") = true := by simpa using hprof
  unfold setupFailure at hfail
  unfold Run runSetup runProfileSetup
  rw [hb]
  simp only [if_true]
  cases hg : env.profileSecretGet (profileSecretName s) <;> rw [hg] at hfail
  · cases h1 : env.paramGet "RELEASE_IMAGE_INITIAL" <;> rw [h1] at hfail
    · cases hfail
      simp [hg, h1]
    · cases h2 : env.paramGet "RELEASE_IMAGE_LATEST" <;> rw [h2] at hfail
      · cases hfail
        simp [hg, h1, h2]
      · cases hfail
  · cases hfail
    simp [hg]

theorem profile_failfast_C4_witness :
    sProf.profile ≠ ""
  ∧ setupFailure envNoProfile sProf =
      some "could not find secret \"t-cluster-profile\": missing"
  ∧ Run envNoProfile sProf false =
      ({ dry := false, trace := [ClusterOp.secretGet (profileSecretName sProf)] },
       ["could not find secret \"t-cluster-profile\": missing"]) :=
  ⟨by decide, by decide,
   profile_failfast_C4 envNoProfile sProf _ (by decide) (by decide)⟩

theorem runPod_snd (env : Env) (s : MultiStageTestStep) (st : RunState)
    (pod : Pod) (hdry : st.dry = false) :
    (runPod env s st pod).2 = podError env s pod := by
  unfold runPod podError
  rw [if_neg (by simp [hdry])]
  cases hc : env.createOrRestart pod.name <;> simp [hc]
  cases hw : env.waitForPod pod.name <;> simp [hw]

theorem runPod_dry_inv (env : Env) (s : MultiStageTestStep) (st : RunState)
    (pod : Pod) : (runPod env s st pod).1.dry = st.dry := by
  unfold runPod
  cases hd : st.dry <;> simp [hd] <;>
    cases hc : env.createOrRestart pod.name <;> simp [hc] <;>
    cases hw : env.waitForPod pod.name <;> simp [hw]

theorem runPod_trace (env : Env) (s : MultiStageTestStep) (st : RunState)
    (pod : Pod) : ∃ t, (runPod env s st pod).1.trace = st.trace ++ t := by
  unfold runPod
  cases hd : st.dry <;> simp [hd]
  cases hc : env.createOrRestart pod.name <;> simp [hc]
  cases hw : env.waitForPod pod.name <;> simp [hw]

theorem runPod_trace_podCreate (env : Env) (s : MultiStageTestStep)
    (st : RunState) (pod : Pod) (hdry : st.dry = false) :
    ClusterOp.podCreate pod.name ∈ (runPod env s st pod).1.trace := by
  unfold runPod
  rw [if_neg (by simp [hdry])]
  cases hc : env.createOrRestart pod.name <;> simp [hc]
  cases hw : env.waitForPod pod.name <;> simp [hw]

theorem runPods_trace_mono (env : Env) (s : MultiStageTestStep) :
    ∀ (pods : List Pod) (st : RunState) (sc : Bool),
      ∃ t, (runPods env s st pods sc).1.trace = st.trace ++ t := by
  intro pods
  induction pods with
  | nil => intro st sc; exact ⟨[], by simp [runPods]⟩
  | cons pod rest ih =>
    intro st sc
    obtain ⟨t0, ht0⟩ := runPod_trace env s st pod
    cases hrp : runPod env s st pod with
    | mk st1 r =>
      rw [hrp] at ht0
      simp only at ht0
      cases r with
      | none =>
        obtain ⟨t1, ht1⟩ := ih st1 sc
        refine ⟨t0 ++ t1, ?_⟩
        simp only [runPods, hrp]
        rw [ht1, ht0, List.append_assoc]
      | some e =>
        cases sc with
        | true =>
          refine ⟨t0, ?_⟩
          simp only [runPods, hrp]
          exact ht0
        | false =>
          obtain ⟨t1, ht1⟩ := ih st1 false
          refine ⟨t0 ++ t1, ?_⟩
          simp only [runPods, hrp]
          rw [ht1, ht0, List.append_assoc]

theorem runPods_dry_inv (env : Env) (s : MultiStageTestStep) :
    ∀ (pods : List Pod) (st : RunState) (sc : Bool),
      (runPods env s st pods sc).1.dry = st.dry := by
  intro pods
  induction pods with
  | nil => intro st sc; simp [runPods]
  | cons pod rest ih =>
    intro st sc
    have hd := runPod_dry_inv env s st pod
    cases hrp : runPod env s st pod with
    | mk st1 r =>
      rw [hrp] at hd
      simp only at hd
      cases r with
      | none => simp only [runPods, hrp]; rw [ih st1 sc]; exact hd
      | some e =>
        cases sc with
        | true => simp only [runPods, hrp]; exact hd
        | false => simp only [runPods, hrp]; rw [ih st1 false]; exact hd

theorem runPods_all_errors (env : Env) (s : MultiStageTestStep) :
    ∀ (pods : List Pod) (st : RunState), st.dry = false →
      (runPods env s st pods false).2 = pods.filterMap (podError env s) := by
  intro pods
  induction pods with
  | nil => intro st _; rfl
  | cons pod rest ih =>
    intro st hdry
    have hsnd := runPod_snd env s st pod hdry
    have hd := runPod_dry_inv env s st pod
    cases hrp : runPod env s st pod with
    | mk st1 r =>
      rw [hrp] at hsnd hd
      simp only at hsnd hd
      rw [hdry] at hd
      cases r with
      | none =>
        simp only [runPods, hrp, List.filterMap_cons, ← hsnd]
        exact ih st1 hd
      | some e =>
        simp only [runPods, hrp, List.filterMap_cons, ← hsnd]
        rw [ih st1 hd]

theorem runPods_all_attempted (env : Env) (s : MultiStageTestStep) :
    ∀ (pods : List Pod) (st : RunState), st.dry = false →
      ∀ pod ∈ pods,
        ClusterOp.podCreate pod.name ∈ (runPods env s st pods false).1.trace := by
  intro pods
  induction pods with
  | nil => intro st _ pod h; cases h
  | cons q rest ih =>
    intro st hdry pod hmem
    have hd := runPod_dry_inv env s st q
    cases hrp : runPod env s st q with
    | mk st1 r =>
      rw [hrp] at hd
      simp only at hd
      rw [hdry] at hd
      have hq : ClusterOp.podCreate q.name ∈ st1.trace := by
        have h := runPod_trace_podCreate env s st q hdry
        rw [hrp] at h
        exact h
      rw [List.mem_cons] at hmem
      rcases hmem with hmem | hmem
      · subst hmem
        cases r with
        | none =>
          obtain ⟨t, ht⟩ := runPods_trace_mono env s rest st1 false
          simp only [runPods, hrp, ht]
          exact List.mem_append_left t hq
        | some e =>
          obtain ⟨t, ht⟩ := runPods_trace_mono env s rest st1 false
          simp only [runPods, hrp, ht]
          exact List.mem_append_left t hq
      · cases r with
        | none =>
          simp only [runPods, hrp]
          exact ih st1 hd pod hmem
        | some e =>
          simp only [runPods, hrp]
          exact ih st1 hd pod hmem

theorem runPods_short_circuit (env : Env) (s : MultiStageTestStep) :
    ∀ (l₁ : List Pod) (st : RunState), st.dry = false →
      ∀ (p : Pod) (l₂ : List Pod) (e : String),
        (∀ q ∈ l₁, podError env s q = none) → podError env s p = some e →
        runPods env s st (l₁ ++ p :: l₂) true = runPods env s st (l₁ ++ [p]) true
      ∧ (runPods env s st (l₁ ++ p :: l₂) true).2 = [e] := by
  intro l₁
  induction l₁ with
  | nil =>
    intro st hdry p l₂ e _ hfail
    have hsnd := runPod_snd env s st p hdry
    simp only [List.nil_append, runPods]
    cases hrp : runPod env s st p with
    | mk st1 r =>
      rw [hrp] at hsnd
      rw [hfail] at hsnd
      cases r with
      | none => cases hsnd
      | some e1 =>
        cases hsnd
        exact ⟨rfl, rfl⟩
  | cons q rest ih =>
    intro st hdry p l₂ e hok hfail
    have hsnd := runPod_snd env s st q hdry
    have hd := runPod_dry_inv env s st q
    have hqok : podError env s q = none := hok q (by simp)
    simp only [List.cons_append, runPods]
    cases hrp : runPod env s st q with
    | mk st1 r =>
      rw [hrp] at hsnd hd
      rw [hdry] at hd
      rw [hqok] at hsnd
      cases r with
      | some e1 => cases hsnd
      | none => exact ih st1 hd p l₂ e (fun x hx => hok x (by simp [hx])) hfail

/-- C2: with short-circuit disabled every pod of the phase is attempted and
every failure appears in the phase aggregate, in order; with short-circuit
enabled the first failing pod ends the phase with exactly that error and
the remaining pods are not attempted. -/
theorem runPods_policy_C2 (env : Env) (s : MultiStageTestStep) (st : RunState)
    (pods l₁ l₂ : List Pod) (p : Pod) (e : String) (hdry : st.dry = false)
    (hok : (l₁.all fun q => (podError env s q).isNone) = true)
    (hfail : podError env s p = some e) :
    (runPods env s st pods false).2 = pods.filterMap (podError env s)
  ∧ (pods.all fun pod =>
      decide (ClusterOp.podCreate pod.name ∈ (runPods env s st pods false).1.trace)) = true
  ∧ runPods env s st (l₁ ++ p :: l₂) true = runPods env s st (l₁ ++ [p]) true
  ∧ (runPods env s st (l₁ ++ p :: l₂) true).2 = [e] := by
  have hok' : ∀ q ∈ l₁, podError env s q = none := by
    intro q hq
    have h := List.all_eq_true.mp hok q hq
    exact Option.isNone_iff_eq_none.mp (by exact h)
  obtain ⟨h3, h4⟩ := runPods_short_circuit env s l₁ st hdry p l₂ e hok' hfail
  refine ⟨runPods_all_errors env s pods st hdry, ?_, h3, h4⟩
  rw [List.all_eq_true]
  intro pod hmem
  rw [decide_eq_true_eq]
  exact runPods_all_attempted env s pods st hdry pod hmem

theorem runPods_policy_C2_witness :
    stRun.dry = false
  ∧ ([podA].all fun q => (podError envFailB sW q).isNone) = true
  ∧ podError envFailB sW podB = some "failed to create or restart \"t-b\" pod: boom"
  ∧ ((runPods envFailB sW stRun [podA, podB, podC] false).2 =
      [podA, podB, podC].filterMap (podError envFailB sW)
    ∧ ([podA, podB, podC].all fun pod =>
        decide (ClusterOp.podCreate pod.name ∈
          (runPods envFailB sW stRun [podA, podB, podC] false).1.trace)) = true
    ∧ runPods envFailB sW stRun ([podA] ++ podB :: [podC]) true =
        runPods envFailB sW stRun ([podA] ++ [podB]) true
    ∧ (runPods envFailB sW stRun ([podA] ++ podB :: [podC]) true).2 =
        ["failed to create or restart \"t-b\" pod: boom"]) :=
  ⟨rfl, by decide, by decide,
   runPods_policy_C2 envFailB sW stRun [podA, podB, podC] [podA] [podC] podB
     "failed to create or restart \"t-b\" pod: boom" rfl (by decide) (by decide)⟩

theorem createSecret_dry (env : Env) (s : MultiStageTestStep) (st : RunState)
    (hdry : st.dry = true) :
    createSecret env s st =
      ({ st with trace := st.trace ++ [ClusterOp.logSecret s.name] }, none) := by
  unfold createSecret
  rw [if_pos hdry]

theorem runPod_dry_eq (env : Env) (s : MultiStageTestStep) (st : RunState)
    (pod : Pod) (hdry : st.dry = true) :
    runPod env s st pod =
      ({ st with trace := st.trace ++ [ClusterOp.logPod pod.name] }, none) := by
  unfold runPod
  rw [if_pos hdry]

theorem runPods_dry_eq (env : Env) (s : MultiStageTestStep) :
    ∀ (pods : List Pod) (st : RunState) (sc : Bool), st.dry = true →
      runPods env s st pods sc =
        ({ st with trace := st.trace ++ pods.map fun p => ClusterOp.logPod p.name },
         []) := by
  intro pods
  induction pods with
  | nil => intro st sc hdry; simp [runPods]
  | cons pod rest ih =>
    intro st sc hdry
    have hrp := runPod_dry_eq env s st pod hdry
    simp only [runPods, hrp]
    rw [ih _ sc (by simp [hdry])]
    simp [List.append_assoc]

theorem runSteps_dry_clean (env : Env) (s : MultiStageTestStep) (st : RunState)
    (steps : List LiteralTestStep) (sc : Bool) (hdry : st.dry = true) :
    (runSteps env s st steps sc).1.dry = true ∧
    ∀ op ∈ (runSteps env s st steps sc).1.trace,
      op ∈ st.trace ∨ mutating op = false := by
  unfold runSteps
  by_cases hg : (generatePods env s st steps).2 = []
  · rw [if_pos hg, runPods_dry_eq env s _ st sc hdry]
    refine ⟨hdry, ?_⟩
    intro op hop
    simp only [List.mem_append] at hop
    rcases hop with h | h
    · exact Or.inl h
    · right
      obtain ⟨p, _, hp⟩ := List.mem_map.mp h
      rw [← hp]
      rfl
  · rw [if_neg hg]
    exact ⟨hdry, fun op hop => Or.inl hop⟩

theorem clean_step (env : Env) (s : MultiStageTestStep) (st : RunState)
    (steps : List LiteralTestStep) (sc : Bool) (hdry : st.dry = true)
    (hclean : ∀ op ∈ st.trace, mutating op = false) :
    (runSteps env s st steps sc).1.dry = true ∧
    ∀ op ∈ (runSteps env s st steps sc).1.trace, mutating op = false := by
  obtain ⟨h1, h2⟩ := runSteps_dry_clean env s st steps sc hdry
  exact ⟨h1, fun op hop => (h2 op hop).elim (fun h => hclean op h) id⟩

theorem runPhases_clean (env : Env) (s : MultiStageTestStep) (st : RunState)
    (hdry : st.dry = true) (hclean : ∀ op ∈ st.trace, mutating op = false) :
    ∀ op ∈ (runPhases env s st).1.trace, mutating op = false := by
  have c1 := clean_step env s st s.pre true hdry hclean
  by_cases hp : (runSteps env s st s.pre true).2 = []
  · have c2 := clean_step env s (runSteps env s st s.pre true).1 s.test true c1.1 c1.2
    have c3 := clean_step env s
      (runSteps env s (runSteps env s st s.pre true).1 s.test true).1 s.post false
      c2.1 c2.2
    intro op hop
    apply c3.2 op
    simpa [runPhases, hp] using hop
  · have c3 := clean_step env s (runSteps env s st s.pre true).1 s.post false c1.1 c1.2
    intro op hop
    apply c3.2 op
    simpa [runPhases, hp] using hop

theorem runProfileSetup_trace (env : Env) (s : MultiStageTestStep) (st : RunState) :
    (runProfileSetup env s st).1.trace = st.trace ∨
    (runProfileSetup env s st).1.trace =
      st.trace ++ [ClusterOp.secretGet (profileSecretName s)] := by
  unfold runProfileSetup
  cases hp : s.profile != "" <;>
    cases hg : env.profileSecretGet (profileSecretName s) <;>
    cases h1 : env.paramGet "RELEASE_IMAGE_INITIAL" <;>
    cases h2 : env.paramGet "RELEASE_IMAGE_LATEST" <;>
    simp [hp, hg, h1, h2]

theorem runSetup_dry_clean (env : Env) (s : MultiStageTestStep) (st : RunState)
    (r : Option String) (h : runSetup env s true = (st, r)) :
    st.dry = true ∧ ∀ op ∈ st.trace, mutating op = false := by
  unfold runSetup at h
  cases hps : runProfileSetup env s { dry := true } with
  | mk st1 r1 =>
    rw [hps] at h
    have hd1 : st1.dry = true := by
      have hx := runProfileSetup_dry env s { dry := true }
      rw [hps] at hx
      exact hx
    have htr : st1.trace = [] ∨
        st1.trace = [ClusterOp.secretGet (profileSecretName s)] := by
      have hx := runProfileSetup_trace env s { dry := true }
      rw [hps] at hx
      simpa using hx
    have hcl1 : ∀ op ∈ st1.trace, mutating op = false := by
      intro op hop
      rcases htr with h2 | h2 <;> rw [h2] at hop
      · cases hop
      · simp only [List.mem_singleton] at hop
        rw [hop]
        rfl
    cases r1 with
    | some e =>
      cases h
      exact ⟨hd1, hcl1⟩
    | none =>
      simp only at h
      rw [createSecret_dry env s st1 hd1] at h
      simp only at h
      cases h
      refine ⟨hd1, ?_⟩
      intro op hop
      simp only [List.mem_append] at hop
      rcases hop with hop | hop
      · exact hcl1 op hop
      · simp only [List.mem_singleton] at hop
        rw [hop]
        rfl

/-- C9: in dry-run mode neither secret creation nor pod execution mutates
cluster state: the secret and each pod specification go to the dry-run
logger, pod execution reports no error, and the whole trace of a dry `Run`
contains no create, delete or wait call. -/
theorem dry_run_no_mutation_C9 (env : Env) (s : MultiStageTestStep)
    (st : RunState) (pods : List Pod) (sc : Bool) (hdry : st.dry = true) :
    runPods env s st pods sc =
      ({ st with trace := st.trace ++ pods.map fun p => ClusterOp.logPod p.name },
       [])
  ∧ createSecret env s st =
      ({ st with trace := st.trace ++ [ClusterOp.logSecret s.name] }, none)
  ∧ ((Run env s true).1.trace.all fun op => !mutating op) = true := by
  refine ⟨runPods_dry_eq env s pods st sc hdry, createSecret_dry env s st hdry, ?_⟩
  rw [List.all_eq_true]
  intro op hop
  rw [Bool.not_eq_true']
  revert hop
  unfold Run
  cases hsetup : runSetup env s true with
  | mk st1 r =>
    obtain ⟨hd1, hcl1⟩ := runSetup_dry_clean env s st1 r hsetup
    cases r with
    | some e => exact fun hop => hcl1 op hop
    | none => exact fun hop => runPhases_clean env s st1 hd1 hcl1 op hop

theorem dry_run_no_mutation_C9_witness :
    stDry.dry = true
  ∧ (runPods envW sW stDry [podA] true =
      ({ stDry with trace := stDry.trace ++ [podA].map fun p => ClusterOp.logPod p.name },
       [])
    ∧ createSecret envW sW stDry =
        ({ stDry with trace := stDry.trace ++ [ClusterOp.logSecret sW.name] }, none)
    ∧ ((Run envW sW true).1.trace.all fun op => !mutating op) = true) :=
  ⟨rfl, dry_run_no_mutation_C9 envW sW stDry [podA] true rfl⟩

theorem wrapPhase_eq_nil (name phase : String) (errs : List String) :
    wrapPhase name phase errs = [] ↔ errs = [] := by
  unfold wrapPhase
  by_cases h : errs = [] <;> simp [h]

/-- C1: once the prologue has succeeded, `Run` executes the pre phase with
short-circuit, the test phase with short-circuit only if pre returned no
error, the post phase without short-circuit unconditionally, and returns
the aggregate of the wrapped phase errors in phase order — the empty
aggregate, meaning success, exactly when every executed phase was
error-free. -/
theorem run_phase_ordering_C1 (env : Env) (s : MultiStageTestStep) (dry : Bool)
    (st0 : RunState) (hsetup : runSetup env s dry = (st0, none)) :
    Run env s dry =
      (let pre := runSteps env s st0 s.pre true
       let test := if pre.2 = [] then runSteps env s pre.1 s.test true else (pre.1, [])
       let post := runSteps env s test.1 s.post false
       (post.1,
        wrapPhase s.name "pre" pre.2 ++ wrapPhase s.name "test" test.2 ++
          wrapPhase s.name "post" post.2))
  ∧ ((Run env s dry).2 = [] ↔
      ((runSteps env s st0 s.pre true).2 = []
      ∧ (runSteps env s (runSteps env s st0 s.pre true).1 s.test true).2 = []
      ∧ (runSteps env s
          (runSteps env s (runSteps env s st0 s.pre true).1 s.test true).1
          s.post false).2 = [])) := by
  have hrun : Run env s dry = runPhases env s st0 := by
    unfold Run
    rw [hsetup]
  constructor
  · rw [hrun]
    by_cases hp : (runSteps env s st0 s.pre true).2 = [] <;>
      simp [runPhases, hp, wrapPhase]
  · rw [hrun]
    by_cases hp : (runSteps env s st0 s.pre true).2 = [] <;>
      simp [runPhases, hp, wrapPhase_eq_nil, wrapPhase]

theorem run_phase_ordering_C1_witness :
    runSetup envW sW false =
      ({ dry := false,
         trace := [ClusterOp.secretDelete "t", ClusterOp.secretCreate "t"] }, none)
  ∧ ((Run envW sW false =
      (let pre := runSteps envW sW
         { dry := false,
           trace := [ClusterOp.secretDelete "t", ClusterOp.secretCreate "t"] }
         sW.pre true
       let test := if pre.2 = [] then runSteps envW sW pre.1 sW.test true
         else (pre.1, [])
       let post := runSteps envW sW test.1 sW.post false
       (post.1,
        wrapPhase sW.name "pre" pre.2 ++ wrapPhase sW.name "test" test.2 ++
          wrapPhase sW.name "post" post.2)))
  ∧ ((Run envW sW false).2 = [] ↔
      ((runSteps envW sW
          { dry := false,
            trace := [ClusterOp.secretDelete "t", ClusterOp.secretCreate "t"] }
          sW.pre true).2 = []
      ∧ (runSteps envW sW (runSteps envW sW
          { dry := false,
            trace := [ClusterOp.secretDelete "t", ClusterOp.secretCreate "t"] }
          sW.pre true).1 sW.test true).2 = []
      ∧ (runSteps envW sW (runSteps envW sW (runSteps envW sW
          { dry := false,
            trace := [ClusterOp.secretDelete "t", ClusterOp.secretCreate "t"] }
          sW.pre true).1 sW.test true).1 sW.post false).2 = []))) :=
  ⟨by decide,
   run_phase_ordering_C1 envW sW false
     { dry := false,
       trace := [ClusterOp.secretDelete "t", ClusterOp.secretCreate "t"] }
     (by decide)⟩

/-- C8 counterexample: a pod that reaches a failed terminal state leaves
its started container unreported in the step's collected subtests — the
notifier finalized a record for it, but the record is never appended. -/
theorem subtests_incompleteness_C8_cex :
    ¬ (((envC8.podStarted podP.name).all fun c =>
        ((SubTests (runPods envC8 sW stRun [podP] false).1).map
          TestCase.name).count c == 1) = true) := by decide

/-- C8 (amended): for every pod execution that completes successfully,
every container that started produces exactly one terminal record in the
step's collected subtests; records of failed or cancelled pods stay in the
notifier and are not appended. -/
theorem subtests_completeness_C8 (env : Env) (s : MultiStageTestStep)
    (st : RunState) (pod : Pod) (hdry : st.dry = false)
    (hsub : st.subTests = [])
    (hcreate : env.createOrRestart pod.name = none)
    (hwait : env.waitForPod pod.name = none)
    (hcomplete : ((env.podStarted pod.name).all fun c =>
        ((env.podSubTests pod.name).map TestCase.name).count c == 1) = true) :
    (runPod env s st pod).2 = none
  ∧ ((env.podStarted pod.name).all fun c =>
      ((SubTests (runPod env s st pod).1).map TestCase.name).count c == 1) = true := by
  unfold runPod SubTests
  rw [if_neg (by simp [hdry]), hcreate, hwait]
  simp only [hsub, List.nil_append]
  exact ⟨trivial, hcomplete⟩

theorem subtests_completeness_C8_witness :
    stRun.dry = false
  ∧ stRun.subTests = []
  ∧ envC8ok.createOrRestart podP.name = none
  ∧ envC8ok.waitForPod podP.name = none
  ∧ ((envC8ok.podStarted podP.name).all fun c =>
      ((envC8ok.podSubTests podP.name).map TestCase.name).count c == 1) = true
  ∧ ((runPod envC8ok sW stRun podP).2 = none
    ∧ ((envC8ok.podStarted podP.name).all fun c =>
        ((SubTests (runPod envC8ok sW stRun podP).1).map
          TestCase.name).count c == 1) = true) :=
  ⟨rfl, rfl, rfl, rfl, by decide,
   subtests_completeness_C8 envC8ok sW stRun podP rfl rfl rfl rfl (by decide)⟩

end Steps
